import Mathlib

/-!
Shallow embedding of the installer request handler (src/handler/handler.go).

The handler turns a URL path plus request metadata into an install script.
This file models, faithfully to the Go source:
  - the route regular expression pathRe and its submatch extraction under
    the leftmost-first semantics of the Go regexp package (handler.go:26-30);
  - the response-format selection and User-Agent sniffing (handler.go:72-86);
  - the error writer showError and the errMsgRe sanitizer (handler.go:33,88-95);
  - the query construction, default-user and force-user/repo steps
    (handler.go:113-146) and the validation/redirect logic (handler.go:147-156);
  - asset classification helpers and Assets.HasM1 (handler.go:180-210);
  - the request construction in Handler.get (handler.go:212-221);
  - the cache key: JSON encoding of Query, SHA-256, base64 (handler.go:50-57).

External collaborators (the GitHub resolver h.execute, the text/template
engine, the embedded script texts of package scripts) are not part of
src/handler/handler.go; they are passed to the model as parameters, so every
theorem quantifies over their behavior.
-/

/-! ## Character classes of the route regular expressions (handler.go:26-33)

The Go regexp escape w stands for the ASCII class 0-9A-Za-z_ (RE2 default). -/

/-- The regexp class w: ASCII letters, digits and underscore. -/
def goWordChar (c : Char) : Bool := c.isAlphanum || c == '_'

/-- Class of userRe, handler.go:27: word characters and hyphen. -/
def userChar (c : Char) : Bool := goWordChar c || c == '-'

/-- Class of repoRe, handler.go:28: word characters, hyphen, underscore.
The extra underscore is redundant with w; the set equals userChar. -/
def repoChar (c : Char) : Bool := goWordChar c || c == '-' || c == '_'

/-- Class of releaseRe, handler.go:29: word characters, hyphen, dot, underscore. -/
def relChar (c : Char) : Bool := goWordChar c || c == '-' || c == '.' || c == '_'

/-- Class of errMsgRe, handler.go:33: the characters NOT removed from error
messages, namely A-Za-z0-9, space, colon, slash, dot. -/
def allowedErrChar (c : Char) : Bool :=
  c.isAlphanum || c == ' ' || c == ':' || c == '/' || c == '.'

/-- Longest run of characters satisfying p, capped at the given repetition
bound, together with the remainder. Models a greedy counted class match. -/
def takeRun (p : Char → Bool) : Nat → List Char → List Char × List Char
  | _, [] => ([], [])
  | 0, l => ([], l)
  | n + 1, c :: rest =>
    if p c then
      let (run, rem) := takeRun p n rest
      (c :: run, rem)
    else ([], c :: rest)

/-- Submatch of the release group of pathRe (handler.go:29-30).
The group is optional and its counted class uses a lazy quantifier; because
nothing follows it in pathRe (the pattern has no end anchor), Go regexp
leftmost-first matching takes the minimum, a single class character, whenever
the remaining input starts with an at sign followed by one class character. -/
def matchRelease : List Char → String
  | '@' :: c :: _ => if relChar c then String.mk [c] else ""
  | _ => ""

/-- Submatch extraction of pathRe (handler.go:30), pattern
caret userRe slash repoRe releaseRe, against a path, under Go regexp
leftmost-first semantics; returns (user, program, release) on a match, with
empty strings for non-participating groups, as FindStringSubmatch does.
The optional greedy user group is tried first; its class excludes the slash,
so the only candidate run is the maximal one, and when the literal slash or
the repo group after it cannot match, matching falls back to the pattern
without the user group. The repo group is greedy and what follows it never
fails, so it takes the maximal capped run. -/
def parsePath (s : String) : Option (String × String × String) :=
  match s.data with
  | '/' :: rest =>
    let withUser :=
      match takeRun userChar 128 rest with
      | ([], _) => none
      | (urun, urest) =>
        match urest with
        | '/' :: rrest =>
          match takeRun repoChar 128 rrest with
          | ([], _) => none
          | (prun, prest) => some (String.mk urun, String.mk prun, matchRelease prest)
        | _ => none
    match withUser with
    | some r => some r
    | none =>
      match takeRun repoChar 128 rest with
      | ([], _) => none
      | (prun, prest) => some ("", String.mk prun, matchRelease prest)
  | _ => none

/-! ## Data model (handler.go:37-64, 180-210) -/

/-- handler.go:37-41. Field order follows the Go struct declaration. -/
structure Query where
  User : String
  Program : String
  AsProgram : String
  Release : String
  MoveToPath : Bool
  Google : Bool
  Insecure : Bool
  SudoMove : Bool
deriving DecidableEq, Repr

/-- handler.go:180-182. The Go field Type is spelled Typ here because Type is
a reserved word in Lean. -/
structure Asset where
  Name : String
  OS : String
  Arch : String
  URL : String
  Typ : String
  SHA256 : String
deriving DecidableEq, Repr

/-- handler.go:200. -/
abbrev Assets := List Asset

/-- handler.go:43-48. The embedded Query is a named field; time.Time is
modelled as a Nat timestamp (its value never matters to the claims). -/
structure Result where
  Query : Query
  Timestamp : Nat
  Assets : Assets
  M1Asset : Bool
deriving DecidableEq, Repr

/-- handler.go:192-194. -/
def Asset.IsMac (a : Asset) : Bool := a.OS == "darwin"

/-- handler.go:196-198. -/
def Asset.IsMacM1 (a : Asset) : Bool := a.IsMac && a.Arch == "arm64"

/-- handler.go:188-190. -/
def Asset.Is32Bit (a : Asset) : Bool := a.Arch == "386"

/-- handler.go:184-186. -/
def Asset.Key (a : Asset) : String := a.OS ++ "/" ++ a.Arch

/-- handler.go:202-210: the range loop returns true at the first Mac M1
asset and false when the loop runs out. -/
def Assets.HasM1 : Assets → Bool
  | [] => false
  | a :: rest => if a.IsMacM1 then true else Assets.HasM1 rest

/-- Configuration fields consumed by the handler (Config is loaded outside
src/handler/handler.go; these are the four fields handler.go reads:
h.Config.User, h.Config.ForceUser, h.Config.ForceRepo, h.Config.Token). -/
structure Config where
  User : String
  ForceUser : String
  ForceRepo : String
  Token : String
deriving DecidableEq, Repr

/-- The request data ServeHTTP reads: URL path, the query parameters type,
insecure and as, and the User-Agent header. -/
structure Req where
  path : String
  qtype : String
  insecure : String
  asParam : String
  userAgent : String
deriving DecidableEq, Repr

/-! ## Error sanitization and showError (handler.go:33, 88-95) -/

/-- Embedding of errMsgRe.ReplaceAllString(msg, "") (handler.go:90): the
pattern matches every single character outside the allowed class and each
match is replaced by the empty string, so exactly the allowed characters
remain, in order. -/
def sanitizeErr (msg : String) : String := String.mk (msg.data.filter allowedErrChar)

/-- An HTTP response as the model observes it: status code, the Content-Type
header if set, the written body, and the Location header if set. -/
structure Response where
  status : Nat
  contentType : Option String
  body : String
  location : Option String
deriving DecidableEq, Repr

/-- Embedding of the showError closure (handler.go:88-95). The message is
sanitized, wrapped in a shell echo line when the response type is script, and
handed to the Go stdlib http.Error, which sets Content-Type to
text/plain; charset=utf-8, writes the given status code and appends a
newline to the body. The source calls http.Error with
http.StatusInternalServerError, not with its code argument, so the code
argument is ignored and the written status is always 500. -/
def showErrorResp (qtype : String) (msg : String) (code : Nat) : Response :=
  let cleaned := sanitizeErr msg
  let cleaned := if qtype == "script" then "echo '" ++ cleaned ++ "'" else cleaned
  { status := 500
    contentType := some "text/plain; charset=utf-8"
    body := cleaned ++ "\n"
    location := none }

/-! ## Response-format selection (handler.go:31-32, 72-112) -/

/-- Bool test that pat is an initial segment of cs. -/
def startsWithChars : List Char → List Char → Bool
  | [], _ => true
  | _ :: _, [] => false
  | p :: ps, c :: cs => p == c && startsWithChars ps cs

/-- ASCII lowercase of every character of a string, as a character list.
Models the case-insensitive flag of isTermRe and isHomebrewRe for the ASCII
strings User-Agent headers are made of. -/
def lowerChars (s : String) : List Char := s.data.map Char.toLower

/-- isTermRe (handler.go:31): case-insensitive anchored match of curl/ or
wget/ at the start of the User-Agent. Note the pattern requires the slash. -/
def isTermUA (ua : String) : Bool :=
  startsWithChars "curl/".data (lowerChars ua) || startsWithChars "wget/".data (lowerChars ua)

/-- isHomebrewRe (handler.go:32): case-insensitive homebrew at the start. -/
def isHomebrewUA (ua : String) : Bool := startsWithChars "homebrew".data (lowerChars ua)

/-- Response type computation (handler.go:75-86): an explicit type query
parameter wins; otherwise the User-Agent selects script for curl/wget,
ruby for Homebrew, else text. -/
def resolveQType (param ua : String) : String :=
  if param != "" then param
  else if isTermUA ua then "script"
  else if isHomebrewUA ua then "ruby"
  else "text"

/-- The three embedded script texts of package scripts (scripts.Shell,
scripts.Homebrew, scripts.Text). Their literal content lives outside
src/handler/handler.go, so the model carries them as parameters. -/
structure Scripts where
  shell : String
  homebrew : String
  text : String
deriving DecidableEq, Repr

/-- The switch on the response type (handler.go:96-112): for a recognized
type, the Content-Type header value, the log extension and the script text;
none for an unknown type, in which case ServeHTTP answers with
showError Unknown type. -/
def formatInfo (qtype : String) (scr : Scripts) : Option (String × String × String) :=
  if qtype == "script" then some ("text/x-shellscript", "sh", scr.shell)
  else if qtype == "homebrew" || qtype == "ruby" then some ("text/ruby", "rb", scr.homebrew)
  else if qtype == "text" then some ("text/plain", "txt", scr.text)
  else none

/-! ## Query construction (handler.go:113-146) -/

/-- strings.HasSuffix(path, "!") (handler.go:128). -/
def endsWithBang (s : String) : Bool := s.data.getLast? == some '!'

/-- handler.go:113-128: the Query literal, the route submatches when pathRe
matches, and MoveToPath from the trailing bang. -/
def queryFromRoute (r : Req) : Query :=
  let base : Query :=
    { User := "", Program := "", AsProgram := r.asParam, Release := ""
      MoveToPath := false, Google := false
      Insecure := r.insecure == "1", SudoMove := false }
  let base :=
    match parsePath r.path with
    | some (u, p, rel) => { base with User := u, Program := p, Release := rel }
    | none => base
  { base with MoveToPath := endsWithBang r.path }

/-- handler.go:129-139: when the route produced no user, the program micro
maps to the fixed maintainer zyedidia, anything else to the configured
default user with the Google fallback flag raised. -/
def defaultUser (cfg : Config) (q : Query) : Query :=
  if q.User == "" then
    if q.Program == "micro" then { q with User := "zyedidia" }
    else { q with User := cfg.User, Google := true }
  else q

/-- handler.go:140-146: a forced user and a forced repo each override
unconditionally when configured. -/
def forceQuery (cfg : Config) (q : Query) : Query :=
  let q := if cfg.ForceUser != "" then { q with User := cfg.ForceUser } else q
  if cfg.ForceRepo != "" then { q with Program := cfg.ForceRepo } else q

/-- The full query the handler validates and executes (handler.go:113-146). -/
def buildQuery (cfg : Config) (r : Req) : Query :=
  forceQuery cfg (defaultUser cfg (queryFromRoute r))

/-! ## The handler (handler.go:66-178) -/

/-- The text/template engine (package text/template, outside
src/handler/handler.go): parse of a script text may fail; executing a parsed
script text against a Result yields a body or fails. Carried as a parameter
so theorems hold for every engine behavior. -/
structure TemplateEngine where
  parse : String → Except String Unit
  texec : String → Result → Except String String

/-- Embedding of ServeHTTP (handler.go:66-178). ghExec stands for h.execute
(defined outside src/handler/handler.go), eng for the template engine, scr
for the embedded script texts. Mirrors the source order: healthz shortcut,
response-type computation, the type switch, query construction, the
root-path redirect, validation, resolution, template parse and execution.
The courtesy HTML body Go http.Redirect writes for GET requests is not
modelled; the redirect response carries status and Location. -/
def serveHTTP (cfg : Config) (ghExec : Query → Except String Result)
    (eng : TemplateEngine) (scr : Scripts) (r : Req) : Response :=
  if r.path == "/healthz" then
    { status := 200, contentType := none, body := "OK", location := none }
  else
    let qtype := resolveQType r.qtype r.userAgent
    match formatInfo qtype scr with
    | none => showErrorResp qtype "Unknown type" 500
    | some (ct, _ext, script) =>
      let q := buildQuery cfg r
      let valid := q.User != "" && q.Program != ""
      if !valid && r.path == "/" then
        { status := 301, contentType := none, body := ""
          location := some "https://github.com/jpillora/installer" }
      else if !valid then showErrorResp qtype "Invalid path" 400
      else
        match ghExec q with
        | Except.error e => showErrorResp qtype e 502
        | Except.ok result =>
          match eng.parse script with
          | Except.error e => showErrorResp qtype ("installer BUG: " ++ e) 500
          | Except.ok _ =>
            match eng.texec script result with
            | Except.error e => showErrorResp qtype ("Template error: " ++ e) 500
            | Except.ok body =>
              { status := 200, contentType := some ct, body := body, location := none }

/-! ## The GitHub client request (handler.go:212-221) -/

/-- An outbound HTTP request: method, URL and the custom headers set on it. -/
structure HttpRequest where
  method : String
  url : String
  headers : List (String × String)
deriving DecidableEq, Repr

/-- The request built by http.NewRequest plus the header writes of
handler.go:213-217: Accept always, Authorization when a token is configured. -/
def builtRequest (token url : String) : HttpRequest :=
  { method := "GET", url := url
    headers :=
      [("Accept", "application/vnd.github.v3+json")] ++
        (if token != "" then [("Authorization", "token " ++ token)] else []) }

/-- The request Handler.get actually performs (handler.go:218): the source
calls http.Get(url), which issues a fresh GET request carrying none of the
headers that were set on the req value built just above it; req is never
passed to a client. -/
def getOutboundRequest (token url : String) : HttpRequest :=
  let _ := builtRequest token url
  { method := "GET", url := url, headers := [] }

/-! ## Cache key derivation (handler.go:50-57)

cacheKey writes the JSON encoding of the Query into a SHA-256 hash and
base64-encodes the digest. The model follows the byte-level pipeline:
Go encoding/json (an Encoder with default HTML escaping, terminating
newline), UTF-8 bytes, FIPS 180-4 SHA-256, RFC 4648 standard base64. -/

/-- Lowercase hex digit. -/
def hexDigit (n : Nat) : Char := "0123456789abcdef".data.getD (n % 16) '0'

/-- Go encoding/json escaping of one character inside a string literal:
quote and backslash escaped, newline, carriage return and tab by letter
escapes, other control characters as u00XX, the HTML characters as u00XX
(the Encoder used by cacheKey keeps the default SetEscapeHTML(true)), the
line and paragraph separators as u2028 and u2029, anything else verbatim. -/
def jsonEscapeChar (c : Char) : String :=
  if c == '"' then "\\\""
  else if c == '\\' then "\\\\"
  else if c == '\n' then "\\n"
  else if c == '\r' then "\\r"
  else if c == '\t' then "\\t"
  else if c.toNat < 0x20 then
    String.mk ['\\', 'u', '0', '0', hexDigit (c.toNat / 16), hexDigit c.toNat]
  else if c == '<' then "\\u003c"
  else if c == '>' then "\\u003e"
  else if c == '&' then "\\u0026"
  else if c.toNat == 0x2028 then "\\u2028"
  else if c.toNat == 0x2029 then "\\u2029"
  else String.mk [c]

/-- A Go JSON string literal. -/
def jsonStr (s : String) : String :=
  "\"" ++ String.join (s.data.map jsonEscapeChar) ++ "\""

/-- A Go JSON bool. -/
def jsonBool (b : Bool) : String := if b then "true" else "false"

/-- The bytes json.NewEncoder(hw).Encode(q) writes (handler.go:52-55): the
object with the eight exported fields in declaration order, then a newline. -/
def encodeQueryJson (q : Query) : String :=
  "\x7b\"User\":" ++ jsonStr q.User ++
    ",\"Program\":" ++ jsonStr q.Program ++
    ",\"AsProgram\":" ++ jsonStr q.AsProgram ++
    ",\"Release\":" ++ jsonStr q.Release ++
    ",\"MoveToPath\":" ++ jsonBool q.MoveToPath ++
    ",\"Google\":" ++ jsonBool q.Google ++
    ",\"Insecure\":" ++ jsonBool q.Insecure ++
    ",\"SudoMove\":" ++ jsonBool q.SudoMove ++ "\x7d\n"

/-- UTF-8 encoding of one unicode scalar value, as a byte list. -/
def utf8EncodeChar (n : Nat) : List Nat :=
  if n < 0x80 then [n]
  else if n < 0x800 then [0xC0 ||| (n >>> 6), 0x80 ||| (n &&& 0x3F)]
  else if n < 0x10000 then
    [0xE0 ||| (n >>> 12), 0x80 ||| ((n >>> 6) &&& 0x3F), 0x80 ||| (n &&& 0x3F)]
  else
    [0xF0 ||| (n >>> 18), 0x80 ||| ((n >>> 12) &&& 0x3F),
      0x80 ||| ((n >>> 6) &&& 0x3F), 0x80 ||| (n &&& 0x3F)]

/-- UTF-8 bytes of a string. -/
def utf8Encode (s : String) : List Nat :=
  (s.data.map (fun c => utf8EncodeChar c.toNat)).flatten

/-! ### SHA-256 (FIPS 180-4), on Nat with explicit reduction modulo 2^32 -/

/-- Truncation to a 32-bit word. -/
def w32 (n : Nat) : Nat := n % 4294967296

/-- Right rotation of a 32-bit word. -/
def rotr32 (x n : Nat) : Nat := w32 ((x >>> n) ||| (x <<< (32 - n)))

def shaCh (x y z : Nat) : Nat := (x &&& y) ^^^ ((x ^^^ 0xFFFFFFFF) &&& z)

def shaMaj (x y z : Nat) : Nat := (x &&& y) ^^^ (x &&& z) ^^^ (y &&& z)

def bigSigma0 (x : Nat) : Nat := rotr32 x 2 ^^^ rotr32 x 13 ^^^ rotr32 x 22

def bigSigma1 (x : Nat) : Nat := rotr32 x 6 ^^^ rotr32 x 11 ^^^ rotr32 x 25

def smallSigma0 (x : Nat) : Nat := rotr32 x 7 ^^^ rotr32 x 18 ^^^ (x >>> 3)

def smallSigma1 (x : Nat) : Nat := rotr32 x 17 ^^^ rotr32 x 19 ^^^ (x >>> 10)

/-- The 64 SHA-256 round constants of FIPS 180-4, written in decimal. -/
def sha256K : List Nat :=
  [1116352408, 1899447441, 3049323471, 3921009573, 961987163, 1508970993,
   2453635748, 2870763221, 3624381080, 310598401, 607225278, 1426881987,
   1925078388, 2162078206, 2614888103, 3248222580, 3835390401, 4022224774,
   264347078, 604807628, 770255983, 1249150122, 1555081692, 1996064986,
   2554220882, 2821834349, 2952996808, 3210313671, 3336571891, 3584528711,
   113926993, 338241895, 666307205, 773529912, 1294757372, 1396182291,
   1695183700, 1986661051, 2177026350, 2456956037, 2730485921, 2820302411,
   3259730800, 3345764771, 3516065817, 3600352804, 4094571909, 275423344,
   430227734, 506948616, 659060556, 883997877, 958139571, 1322822218,
   1537002063, 1747873779, 1955562222, 2024104815, 2227730452, 2361852424,
   2428436474, 2756734187, 3204031479, 3329325298]

/-- The initial SHA-256 hash state of FIPS 180-4, written in decimal. -/
def sha256H0 : List Nat :=
  [1779033703, 3144134277, 1013904242, 2773480762,
   1359893119, 2600822924, 528734635, 1541459225]

/-- Big-endian bytes of a 32-bit word. -/
def beBytes4 (n : Nat) : List Nat :=
  [(n >>> 24) % 256, (n >>> 16) % 256, (n >>> 8) % 256, n % 256]

/-- Big-endian bytes of a 64-bit length. -/
def beBytes8 (n : Nat) : List Nat :=
  [(n >>> 56) % 256, (n >>> 48) % 256, (n >>> 40) % 256, (n >>> 32) % 256,
   (n >>> 24) % 256, (n >>> 16) % 256, (n >>> 8) % 256, n % 256]

/-- SHA-256 message padding: the 0x80 byte, zeros to 56 modulo 64, the
bit length as eight big-endian bytes. -/
def sha256Pad (msg : List Nat) : List Nat :=
  let l := msg.length
  let zeroCount := (64 + 56 - ((l + 1) % 64)) % 64
  msg ++ [0x80] ++ List.replicate zeroCount 0 ++ beBytes8 (8 * l)

/-- Split a byte list into 64-byte blocks. -/
def chunks64 : List Nat → List (List Nat)
  | [] => []
  | b :: rest => (b :: rest).take 64 :: chunks64 ((b :: rest).drop 64)
termination_by l => l.length
decreasing_by simp [List.length_drop]; omega

/-- Group bytes into big-endian 32-bit words. -/
def words32 : List Nat → List Nat
  | b0 :: b1 :: b2 :: b3 :: rest =>
    ((((b0 <<< 8) ||| b1) <<< 8 ||| b2) <<< 8 ||| b3) :: words32 rest
  | _ => []

/-- Word i of the message schedule list, zero out of range. -/
def wAt (l : List Nat) (i : Nat) : Nat := l.getD i 0

/-- Extend the sixteen block words by the given number of schedule words. -/
def extendSchedule : List Nat → Nat → List Nat
  | w, 0 => w
  | w, n + 1 =>
    let i := w.length
    let next :=
      w32 (smallSigma1 (wAt w (i - 2)) + wAt w (i - 7) +
        smallSigma0 (wAt w (i - 15)) + wAt w (i - 16))
    extendSchedule (w ++ [next]) n

/-- One SHA-256 round on the eight working variables, consuming one round
constant paired with one schedule word. -/
def sha256Round (st : Nat × Nat × Nat × Nat × Nat × Nat × Nat × Nat)
    (kw : Nat × Nat) : Nat × Nat × Nat × Nat × Nat × Nat × Nat × Nat :=
  match st, kw with
  | (a, b, c, d, e, f, g, h), (k, wv) =>
    let t1 := w32 (h + bigSigma1 e + shaCh e f g + k + wv)
    let t2 := w32 (bigSigma0 a + shaMaj a b c)
    (w32 (t1 + t2), a, b, c, w32 (d + t1), e, f, g)

/-- SHA-256 compression of one 64-byte block into the hash state. -/
def sha256Compress (h : List Nat) (block : List Nat) : List Nat :=
  let w := extendSchedule (words32 block) 48
  match h.getD 0 0, h.getD 1 0, h.getD 2 0, h.getD 3 0,
      h.getD 4 0, h.getD 5 0, h.getD 6 0, h.getD 7 0 with
  | a0, b0, c0, d0, e0, f0, g0, h0 =>
    match List.foldl sha256Round (a0, b0, c0, d0, e0, f0, g0, h0) (sha256K.zip w) with
    | (a, b, c, d, e, f, g, hh) =>
      [w32 (a0 + a), w32 (b0 + b), w32 (c0 + c), w32 (d0 + d),
       w32 (e0 + e), w32 (f0 + f), w32 (g0 + g), w32 (h0 + hh)]

/-- SHA-256 digest of a byte list, as 32 bytes. -/
def sha256Bytes (msg : List Nat) : List Nat :=
  ((chunks64 (sha256Pad msg)).foldl sha256Compress sha256H0).flatMap beBytes4

/-! ### Standard base64 (RFC 4648, the Go base64.StdEncoding) -/

/-- The standard base64 alphabet. -/
def b64Alphabet : List Char :=
  "ABCDEFGHIJKLMNOPQRSTUVWXYZabcdefghijklmnopqrstuvwxyz0123456789+/".data

def b64CharAt (i : Nat) : Char := b64Alphabet.getD i 'A'

/-- Standard base64 with padding. -/
def base64Encode : List Nat → String
  | [] => ""
  | [b0] =>
    String.mk [b64CharAt (b0 >>> 2), b64CharAt ((b0 &&& 0x3) <<< 4), '=', '=']
  | [b0, b1] =>
    String.mk [b64CharAt (b0 >>> 2), b64CharAt (((b0 &&& 0x3) <<< 4) ||| (b1 >>> 4)),
      b64CharAt ((b1 &&& 0xF) <<< 2), '=']
  | b0 :: b1 :: b2 :: rest =>
    String.mk [b64CharAt (b0 >>> 2), b64CharAt (((b0 &&& 0x3) <<< 4) ||| (b1 >>> 4)),
      b64CharAt ((((b1 &&& 0xF) <<< 2) ||| (b2 >>> 6))), b64CharAt (b2 &&& 0x3F)] ++
      base64Encode rest

/-- Query.cacheKey (handler.go:50-57): base64 of the SHA-256 digest of the
JSON encoding of the query. -/
def cacheKey (q : Query) : String :=
  base64Encode (sha256Bytes (utf8Encode (encodeQueryJson q)))

/-! ## Concrete fixtures for closed evaluations -/

/-- A configuration with the default user of the deployed service and no
forced user or repo and no token. -/
def cfg0 : Config := { User := "jpillora", ForceUser := "", ForceRepo := "", Token := "" }

/-- Placeholder script texts standing for the embedded scripts package. -/
def scr0 : Scripts := { shell := "SHELL SCRIPT", homebrew := "BREW SCRIPT", text := "TEXT SCRIPT" }

/-- A template engine whose parse and execution always succeed. -/
def engOK : TemplateEngine :=
  { parse := fun _ => Except.ok (), texec := fun _ _ => Except.ok "rendered" }

/-- A sample query value. -/
def q0 : Query :=
  { User := "a", Program := "b", AsProgram := "", Release := "v1"
    MoveToPath := false, Google := true, Insecure := false, SudoMove := false }

/-- A sample resolution result. -/
def res0 : Result := { Query := q0, Timestamp := 0, Assets := [], M1Asset := false }

/-- A resolver that fails, standing for an upstream failure of h.execute. -/
def execFail : Query → Except String Result :=
  fun _ => Except.error "request failed: https://api.github.com/x: connection refused"

/-- A resolver that succeeds with res0. -/
def execOk : Query → Except String Result := fun _ => Except.ok res0

/-- A request whose path matches no route: pathRe rejects the double slash. -/
def rInvalid : Req :=
  { path := "//", qtype := "script", insecure := "", asParam := "", userAgent := "" }

/-- A well-formed request for user a, program b, explicit script type. -/
def rValid : Req :=
  { path := "/a/b", qtype := "script", insecure := "", asParam := "", userAgent := "" }

/-- A root-path request from curl with no explicit type. -/
def rRoot : Req :=
  { path := "/", qtype := "", insecure := "", asParam := "", userAgent := "curl/8.0" }

/-- A well-formed request from curl with no explicit type. -/
def rValidCurl : Req :=
  { path := "/a/b", qtype := "", insecure := "", asParam := "", userAgent := "curl/8.0" }

/-- A bare-program request for the micro alias. -/
def rMicro : Req :=
  { path := "/micro", qtype := "", insecure := "", asParam := "", userAgent := "" }

/-! ## Theorems -/

/-- C1: the claim says every call of the GitHub client get operation sends an
Accept header and, with a token configured, an Authorization header. The code
builds such a request but then performs http.Get(url), which carries neither
header: at token sometoken the outbound request has an empty header list,
while the request built and abandoned on the lines above holds both headers. -/
theorem C1_get_sends_no_headers :
    (getOutboundRequest "sometoken" "https://api.github.com/repos/a/b/releases/latest").headers
      = [] ∧
    (builtRequest "sometoken" "https://api.github.com/repos/a/b/releases/latest").headers
      = [("Accept", "application/vnd.github.v3+json"), ("Authorization", "token sometoken")] := by
  exact ⟨rfl, rfl⟩

/-- C2: the claim says the error status matches the error class: 400 for an
invalid path, 502 for an upstream failure. The showError closure passes
http.StatusInternalServerError to http.Error regardless of its code
argument, so both an invalid path and a failing resolution answer 500. -/
theorem C2_error_status_always_500 :
    (serveHTTP cfg0 execFail engOK scr0 rInvalid).status = 500 ∧
    (serveHTTP cfg0 execFail engOK scr0 rValid).status = 500 := by
  exact ⟨rfl, rfl⟩

/-- C4: the claim says a path of the form user slash program at tag recovers
the whole tag into Query.Release. The route pattern has no end anchor, so
the lazy counted class of the release group matches a single character:
both sample paths leave all but the first tag character behind. -/
theorem C4_release_tag_truncated :
    parsePath "/jpillora/chisel@v1.10.1" = some ("jpillora", "chisel", "v") ∧
    parsePath "/u/p@v1.2" = some ("u", "p", "v") := by
  exact ⟨rfl, rfl⟩

/-- C3: for the script format, the error body is the fixed echo wrapper
around the sanitized message; the sanitized message is a subsequence of the
original message (nothing else from the message reaches the body) and every
character of it lies in the allowed class A-Za-z0-9 space colon slash dot. -/
theorem C3_script_error_body_sanitized (msg : String) (c : Char)
    (h : c ∈ (sanitizeErr msg).data) :
    allowedErrChar c = true ∧
    (sanitizeErr msg).data.Sublist msg.data ∧
    (showErrorResp "script" msg 502).body = "echo '" ++ sanitizeErr msg ++ "'" ++ "\n" := by
  refine ⟨?_, ?_, ?_⟩
  · have h' : c ∈ msg.data.filter allowedErrChar := h
    exact (List.mem_filter.mp h').2
  · exact List.filter_sublist msg.data
  · show (if ("script" : String) == "script" then "echo '" ++ sanitizeErr msg ++ "'"
      else sanitizeErr msg) ++ "\n" = _
    rw [if_pos (by rfl)]

/-- C3 witness at a concrete shell-metacharacter message. -/
theorem C3_witness :
    ('r' ∈ (sanitizeErr "; rm -rf / #").data) ∧
    (allowedErrChar 'r' = true ∧
      (sanitizeErr "; rm -rf / #").data.Sublist "; rm -rf / #".data ∧
      (showErrorResp "script" "; rm -rf / #" 502).body =
        "echo '" ++ sanitizeErr "; rm -rf / #" ++ "'" ++ "\n") :=
  ⟨by decide, C3_script_error_body_sanitized "; rm -rf / #" 'r' (by decide)⟩

/-- C10: sanitization is applied to the error message for every response
format: the body always embeds the sanitized message, whose characters all
lie in the allowed class, and only the script format wraps it in an echo
line; every format appends the newline of http.Error. -/
theorem C10_sanitize_every_format (qtype msg : String) (code : Nat) (c : Char)
    (h : c ∈ (sanitizeErr msg).data) :
    allowedErrChar c = true ∧
    (showErrorResp qtype msg code).body =
      (if qtype == "script" then "echo '" ++ sanitizeErr msg ++ "'" else sanitizeErr msg)
        ++ "\n" := by
  constructor
  · have h' : c ∈ msg.data.filter allowedErrChar := h
    exact (List.mem_filter.mp h').2
  · rfl

/-- C10 witness at the ruby format and a concrete metacharacter message. -/
theorem C10_witness :
    ('x' ∈ (sanitizeErr "x; rm -rf /").data) ∧
    (allowedErrChar 'x' = true ∧
      (showErrorResp "ruby" "x; rm -rf /" 502).body =
        (if ("ruby" : String) == "script" then "echo '" ++ sanitizeErr "x; rm -rf /" ++ "'"
          else sanitizeErr "x; rm -rf /") ++ "\n") :=
  ⟨by decide, C10_sanitize_every_format "ruby" "x; rm -rf /" 502 'x' (by decide)⟩

/-- C5: the cache key is a deterministic function of the Query value:
repeated evaluation gives the same key, and structurally equal queries give
identical keys. -/
theorem C5_cacheKey_deterministic (q q' : Query) (h : q = q') :
    cacheKey q = cacheKey q ∧ cacheKey q = cacheKey q' :=
  ⟨rfl, by rw [h]⟩

/-- C5 witness at a concrete query. -/
theorem C5_witness :
    (q0 = q0) ∧ (cacheKey q0 = cacheKey q0 ∧ cacheKey q0 = cacheKey q0) :=
  ⟨rfl, C5_cacheKey_deterministic q0 q0 rfl⟩

/-- Helper: the Mac M1 test of one asset, as a proposition. -/
theorem isMacM1_iff (a : Asset) :
    a.IsMacM1 = true ↔ a.OS = "darwin" ∧ a.Arch = "arm64" := by
  simp [Asset.IsMacM1, Asset.IsMac, Bool.and_eq_true]

/-- C6: HasM1 returns true exactly when some contained asset is darwin on
arm64, and returns false on the empty list. -/
theorem C6_hasM1_iff (as : Assets) :
    (Assets.HasM1 as = true ↔ ∃ a, a ∈ as ∧ a.OS = "darwin" ∧ a.Arch = "arm64") ∧
    Assets.HasM1 ([] : Assets) = false := by
  refine ⟨?_, rfl⟩
  induction as with
  | nil => simp [Assets.HasM1]
  | cons a t ih =>
    simp only [Assets.HasM1]
    constructor
    · intro hh
      by_cases hm : a.IsMacM1 = true
      · exact ⟨a, List.mem_cons_self a t, (isMacM1_iff a).mp hm⟩
      · rw [if_neg hm] at hh
        obtain ⟨x, hx, hprop⟩ := ih.mp hh
        exact ⟨x, List.mem_cons_of_mem a hx, hprop⟩
    · rintro ⟨x, hx, hOS, hArch⟩
      rcases List.mem_cons.mp hx with hxa | hx'
      · rw [if_pos ((isMacM1_iff a).mpr (hxa ▸ ⟨hOS, hArch⟩))]
      · by_cases hm : a.IsMacM1 = true
        · rw [if_pos hm]
        · rw [if_neg hm]
          exact ih.mpr ⟨x, hx', hOS, hArch⟩

/-- C7 counterexample: a root-path request with an invalid query but an
unrecognized explicit type parameter is answered by the Unknown-type error,
status 500 and no Location header, not by the 301 redirect the claim
promises for every invalid-query root request. -/
theorem C7_counterexample_unknown_type_at_root :
    (serveHTTP cfg0 execFail engOK scr0
        { path := "/", qtype := "bogus", insecure := "", asParam := "", userAgent := "" }).status
      = 500 ∧
    (serveHTTP cfg0 execFail engOK scr0
        { path := "/", qtype := "bogus", insecure := "", asParam := "", userAgent := "" }).location
      = none := by
  exact ⟨rfl, rfl⟩

/-- C7 amended: when the resolved response type is recognized, a root-path
request whose query is invalid after defaulting is answered with the 301
redirect to the project homepage, and the response does not depend on the
resolver, so no resolution outcome is observable. -/
theorem C7_amended_root_redirect (cfg : Config)
    (ghExec ghExec2 : Query → Except String Result)
    (eng : TemplateEngine) (scr : Scripts) (r : Req)
    (hroot : r.path = "/")
    (hfmt : (formatInfo (resolveQType r.qtype r.userAgent) scr).isSome = true)
    (hinv : (buildQuery cfg r).User = "" ∨ (buildQuery cfg r).Program = "") :
    serveHTTP cfg ghExec eng scr r =
      { status := 301, contentType := none, body := ""
        location := some "https://github.com/jpillora/installer" } ∧
    serveHTTP cfg ghExec eng scr r = serveHTTP cfg ghExec2 eng scr r := by
  have key : ∀ ex : Query → Except String Result,
      serveHTTP cfg ex eng scr r =
        { status := 301, contentType := none, body := ""
          location := some "https://github.com/jpillora/installer" } := by
    intro ex
    obtain ⟨fi, hfi⟩ := Option.isSome_iff_exists.mp hfmt
    obtain ⟨ct, ext2, sct⟩ := fi
    have hvalid : ((buildQuery cfg r).User != "" && (buildQuery cfg r).Program != "") = false := by
      rcases hinv with h | h <;> simp [h]
    simp [serveHTTP, hroot, hfi, hvalid]
  exact ⟨key ghExec, (key ghExec).trans (key ghExec2).symm⟩

/-- C7 witness: the concrete root request from curl with the default
configuration, against both the failing and the succeeding resolver. -/
theorem C7_witness :
    (rRoot.path = "/") ∧
    ((formatInfo (resolveQType rRoot.qtype rRoot.userAgent) scr0).isSome = true) ∧
    ((buildQuery cfg0 rRoot).User = "" ∨ (buildQuery cfg0 rRoot).Program = "") ∧
    (serveHTTP cfg0 execFail engOK scr0 rRoot =
        { status := 301, contentType := none, body := ""
          location := some "https://github.com/jpillora/installer" } ∧
      serveHTTP cfg0 execFail engOK scr0 rRoot = serveHTTP cfg0 execOk engOK scr0 rRoot) :=
  ⟨rfl, rfl, Or.inr rfl,
    C7_amended_root_redirect cfg0 execFail execOk engOK scr0 rRoot rfl rfl (Or.inr rfl)⟩

/-- C8: when the route produced no owner, the program micro gets the fixed
user zyedidia with the Google flag left false, and any other program gets
the configured default user with the Google flag raised. -/
theorem C8_default_user_policy (cfg : Config) (r : Req) (p rel : String)
    (hparse : parsePath r.path = some ("", p, rel)) :
    (p = "micro" →
      defaultUser cfg (queryFromRoute r) = { queryFromRoute r with User := "zyedidia" } ∧
      (defaultUser cfg (queryFromRoute r)).Google = false) ∧
    (p ≠ "micro" →
      defaultUser cfg (queryFromRoute r) =
        { queryFromRoute r with User := cfg.User, Google := true }) := by
  have hq : queryFromRoute r =
      { User := "", Program := p, AsProgram := r.asParam, Release := rel
        MoveToPath := endsWithBang r.path, Google := false
        Insecure := r.insecure == "1", SudoMove := false } := by
    simp [queryFromRoute, hparse]
  constructor
  · intro hp
    subst hp
    rw [hq]
    exact ⟨by simp [defaultUser], by simp [defaultUser]⟩
  · intro hp
    rw [hq]
    simp [defaultUser, hp]

/-- C8 witness at the concrete bare micro path. -/
theorem C8_witness :
    (parsePath rMicro.path = some ("", "micro", "")) ∧
    ((("micro" : String) = "micro" →
        defaultUser cfg0 (queryFromRoute rMicro) =
          { queryFromRoute rMicro with User := "zyedidia" } ∧
        (defaultUser cfg0 (queryFromRoute rMicro)).Google = false) ∧
      (("micro" : String) ≠ "micro" →
        defaultUser cfg0 (queryFromRoute rMicro) =
          { queryFromRoute rMicro with User := cfg0.User, Google := true })) :=
  ⟨rfl, C8_default_user_policy cfg0 rMicro "micro" "" rfl⟩

/-- C9 counterexample: the claim says any User-Agent with case-insensitive
leading curl selects the script format, but isTermRe requires the slash of
curl/ and wget/: the User-Agent curl alone selects text, and the served
Content-Type is text/plain rather than text/x-shellscript. -/
theorem C9_counterexample_curl_no_slash :
    resolveQType "" "curl" = "text" ∧
    resolveQType "" "curl" ≠ "script" ∧
    (serveHTTP cfg0 execOk engOK scr0
        { path := "/a/b", qtype := "", insecure := "", asParam := "", userAgent := "curl" }).contentType
      = some "text/plain" := by
  exact ⟨rfl, by decide, rfl⟩

/-- C9 amended: the explicit type parameter determines the format; with no
parameter the User-Agent selects script on a case-insensitive curl/ or
wget/ start and ruby on a Homebrew start, else text; and a successfully
rendered response carries Content-Type text/x-shellscript for script,
text/ruby for homebrew and ruby, text/plain for text. -/
theorem C9_amended_format_selection (cfg : Config)
    (ghExec : Query → Except String Result) (eng : TemplateEngine) (scr : Scripts)
    (r : Req) (res : Result) (body : String) (qt : String)
    (hqt : qt = resolveQType r.qtype r.userAgent)
    (hnh : r.path ≠ "/healthz")
    (hrec : qt = "script" ∨ qt = "homebrew" ∨ qt = "ruby" ∨ qt = "text")
    (hvalid : ((buildQuery cfg r).User != "" && (buildQuery cfg r).Program != "") = true)
    (hexec : ghExec (buildQuery cfg r) = Except.ok res)
    (hpe : ∀ s, eng.parse s = Except.ok ())
    (hte : ∀ s res2, eng.texec s res2 = Except.ok body) :
    (r.qtype ≠ "" → qt = r.qtype) ∧
    (r.qtype = "" → isTermUA r.userAgent = true → qt = "script") ∧
    (r.qtype = "" → isTermUA r.userAgent = false → isHomebrewUA r.userAgent = true →
      qt = "ruby") ∧
    (r.qtype = "" → isTermUA r.userAgent = false → isHomebrewUA r.userAgent = false →
      qt = "text") ∧
    (serveHTTP cfg ghExec eng scr r).status = 200 ∧
    (serveHTTP cfg ghExec eng scr r).contentType =
      some (if qt == "script" then "text/x-shellscript"
        else if qt == "homebrew" || qt == "ruby" then "text/ruby" else "text/plain") := by
  have h1 : (r.path == "/healthz") = false := by simp [hnh]
  refine ⟨?_, ?_, ?_, ?_, ?_, ?_⟩
  · intro h
    rw [hqt]
    simp [resolveQType, h]
  · intro h hterm
    rw [hqt]
    simp [resolveQType, h, hterm]
  · intro h hterm hbrew
    rw [hqt]
    simp [resolveQType, h, hterm, hbrew]
  · intro h hterm hbrew
    rw [hqt]
    simp [resolveQType, h, hterm, hbrew]
  · rcases hrec with h | h | h | h <;> subst h <;>
      simp [serveHTTP, h1, ← hqt, formatInfo, hvalid, hexec, hpe, hte]
  · rcases hrec with h | h | h | h <;> subst h <;>
      simp [serveHTTP, h1, ← hqt, formatInfo, hvalid, hexec, hpe, hte]

/-- C9 witness: the concrete curl request for user a, program b with a
succeeding resolver and template engine. -/
theorem C9_witness :
    ((rValidCurl.qtype ≠ "" → ("script" : String) = rValidCurl.qtype) ∧
      (rValidCurl.qtype = "" → isTermUA rValidCurl.userAgent = true →
        ("script" : String) = "script") ∧
      (rValidCurl.qtype = "" → isTermUA rValidCurl.userAgent = false →
        isHomebrewUA rValidCurl.userAgent = true → ("script" : String) = "ruby") ∧
      (rValidCurl.qtype = "" → isTermUA rValidCurl.userAgent = false →
        isHomebrewUA rValidCurl.userAgent = false → ("script" : String) = "text") ∧
      (serveHTTP cfg0 execOk engOK scr0 rValidCurl).status = 200 ∧
      (serveHTTP cfg0 execOk engOK scr0 rValidCurl).contentType =
        some (if ("script" : String) == "script" then "text/x-shellscript"
          else if ("script" : String) == "homebrew" || ("script" : String) == "ruby"
            then "text/ruby" else "text/plain")) :=
  C9_amended_format_selection cfg0 execOk engOK scr0 rValidCurl res0 "rendered" "script"
    rfl (by decide) (Or.inl rfl) rfl rfl (fun _ => rfl) (fun _ _ => rfl)
